import Mathlib

/-!
Verification of the 1D DenseNet graph-construction library.

The repository is a thin, declarative graph-assembly layer over a Keras-style
framework: every builder produces a symbolic tensor (a node of a computation
graph) from symbolic tensors.  We embed those symbolic tensors as an inductive
expression type `Tensor` recording exactly the layers the source applies, and
a shape checker `buildShape` that mirrors the framework's build-time shape
propagation (and returns `none` where the framework would raise a build-time
shape error).  Shapes omit the batch dimension: a 1D sequence tensor has shape
`[seq_len, channels]` (the source runs with the default channels-last data
format, so the channel axis is the last one).
-/

/-- Output length of a same-padded, strided sliding window: `ceil (len / stride)`. -/
def ceilDiv (a b : Nat) : Nat := (a + b - 1) / b

/-- Symbolic Keras graph node, one constructor per layer kind the source uses.
`conv1d` records filters, kernel width, strides, padding and dilation rate in
the order the source passes them. -/
inductive Tensor where
  | input (seq_len channels : Nat)
  | batchNorm (x : Tensor)
  | activation (name : String) (x : Tensor)
  | conv1d (filters kernel_width strides : Nat) (padding : String) (dilation_rate : Nat) (x : Tensor)
  | avgPool1d (pool_size strides : Nat) (padding : String) (x : Tensor)
  | globalAvgPool1d (x : Tensor)
  | reshape (d1 d2 : Nat) (x : Tensor)
  | dense (units : Nat) (activationName : String) (x : Tensor)
  | concat (xs : List Tensor)
  | multiply (a b : Tensor)

/-- Broadcast one dimension pair, numpy style: equal, or one of them is 1. -/
def broadcastDim (a b : Nat) : Option Nat :=
  if a = b then some a else if a = 1 then some b else if b = 1 then some a else none

/-- Broadcast two equal-length shapes dimension by dimension. -/
def broadcastAux : List Nat → List Nat → Option (List Nat)
  | [], [] => some []
  | a :: s1, b :: s2 =>
    match broadcastDim a b, broadcastAux s1 s2 with
    | some d, some ds => some (d :: ds)
    | _, _ => none
  | _, _ => none

/-- Broadcast two shapes, right-aligned (the framework's elementwise-merge
rule): the shorter shape is padded on the left with broadcastable 1s. -/
def broadcast2 (s1 s2 : List Nat) : Option (List Nat) :=
  broadcastAux (List.replicate (s2.length - s1.length) 1 ++ s1)
    (List.replicate (s1.length - s2.length) 1 ++ s2)

/-- Channels contributed by a list of `[len, channels]` shapes that must all share
the sequence length `L`; `none` on any rank or length mismatch. -/
def sameLenChannels (L : Nat) : List (List Nat) → Option Nat
  | [] => some 0
  | s :: ss =>
    match s with
    | [L2, c] => if L2 = L then (sameLenChannels L ss).map (fun r => c + r) else none
    | _ => none

/-- Shape of a channel-axis concatenation.  The framework's merge layers need at
least two inputs, all rank-2 (batchless) with equal sequence length. -/
def concatShape : List (List Nat) → Option (List Nat)
  | [L, c] :: s2 :: rest =>
    match sameLenChannels L (s2 :: rest) with
    | some r => some [L, c + r]
    | none => none
  | _ => none

mutual

/-- Build-time shape propagation: `some shape` when the framework accepts the
graph, `none` where it would raise a shape error while building. -/
def buildShape : Tensor → Option (List Nat)
  | .input L c => some [L, c]
  | .batchNorm x => buildShape x
  | .activation _ x => buildShape x
  | .conv1d f _ s p _ x =>
    match buildShape x with
    | some [L, _] => if 1 ≤ s ∧ p = "same" then some [ceilDiv L s, f] else none
    | _ => none
  | .avgPool1d w s p x =>
    match buildShape x with
    | some [L, c] => if 1 ≤ w ∧ 1 ≤ s ∧ p = "same" then some [ceilDiv L s, c] else none
    | _ => none
  | .globalAvgPool1d x =>
    match buildShape x with
    | some [_, c] => some [c]
    | _ => none
  | .reshape d1 d2 x =>
    match buildShape x with
    | some dims => if dims.foldl (· * ·) 1 = d1 * d2 then some [d1, d2] else none
    | none => none
  | .dense u _ x =>
    match buildShape x with
    | some [] => none
    | some dims => some (dims.dropLast ++ [u])
    | none => none
  | .concat xs =>
    match buildShapes xs with
    | some shapes => concatShape shapes
    | none => none
  | .multiply a b =>
    match buildShape a, buildShape b with
    | some s1, some s2 => broadcast2 s1 s2
    | _, _ => none

/-- Shapes of a list of tensors; `none` as soon as one member fails to build. -/
def buildShapes : List Tensor → Option (List (List Nat))
  | [] => some []
  | t :: ts =>
    match buildShape t, buildShapes ts with
    | some s, some ss => some (s :: ss)
    | _, _ => none

end

/-- Channel count the builder reads off a symbolic tensor
(`init.shape[channel_axis]` with the default channels-last axis, i.e. the last
dimension of the built shape). -/
def lastDim (t : Tensor) : Nat := ((buildShape t).getD []).getLastD 0

/-- Embedding of `squeeze_excite_block(input_tensor, ratio=8)` from
`densenet/blocks/one_d.py` (channels-last data format, so `channel_axis = -1`
and the `channels_first` permute branch is not taken).  Python's
`filters // ratio` is `Nat` floor division here; the source performs no
validation of `ratio` (for `ratio = 0` Python would raise `ZeroDivisionError`,
so theorems assume `1 ≤ ratio`). -/
def squeeze_excite_block (input_tensor : Tensor) (ratio : Nat) : Tensor :=
  let init := input_tensor
  let filters := lastDim init
  let se1 := Tensor.globalAvgPool1d init
  let se2 := Tensor.reshape 1 filters se1
  let se3 := Tensor.dense (filters / ratio) "relu" se2
  let se4 := Tensor.dense filters "sigmoid" se3
  Tensor.multiply init se4

/-- The optional bottleneck stage of `H_l`: normalize, rectify, then a 1-wide
convolution to `k * bottleneck_size` channels (stride 1, same padding,
dilation 1). -/
def bottleneckStage (k bottleneck_size : Nat) (x : Tensor) : Tensor :=
  Tensor.conv1d (k * bottleneck_size) 1 1 "same" 1
    (Tensor.activation "relu" (Tensor.batchNorm x))

/-- The unconditional main stage of `H_l`: normalize, rectify, then a
`kernel_width`-wide convolution to `k` channels (stride 1, same padding,
dilation 1). -/
def mainStage (k kernel_width : Nat) (x : Tensor) : Tensor :=
  Tensor.conv1d k kernel_width 1 "same" 1
    (Tensor.activation "relu" (Tensor.batchNorm x))

/-- Embedding of `H_l(k, bottleneck_size, kernel_width)` applied to a tensor:
the bottleneck stage runs exactly when `bottleneck_size > 0`
(`use_bottleneck = bottleneck_size > 0` in the source), then the main stage. -/
def H_l (k bottleneck_size kernel_width : Nat) (x : Tensor) : Tensor :=
  mainStage k kernel_width
    (if 0 < bottleneck_size then bottleneckStage k bottleneck_size x else x)

/-- The per-iteration optional squeeze-excite gate of `dense_block`
(`if se: x = squeeze_excite_block(x)`, with the default `ratio=8`). -/
def seGate (se : Bool) (t : Tensor) : Tensor :=
  if se then squeeze_excite_block t 8 else t

/-- The loop body of `dense_block`'s inner function `f`, with the running
tensor `x` and the accumulating `layers_to_concat` list as explicit state:
each iteration appends `H_l(...)(x)` to the list, concatenates the whole list
along the channel axis, and optionally applies the squeeze-excite gate. -/
def denseLoopAux (k kernel_width bottleneck_size : Nat) (se : Bool) :
    Nat → Tensor → List Tensor → Tensor
  | 0, x, _ => x
  | n + 1, x, layers_to_concat =>
    denseLoopAux k kernel_width bottleneck_size se n
      (seGate se (Tensor.concat (layers_to_concat ++ [H_l k bottleneck_size kernel_width x])))
      (layers_to_concat ++ [H_l k bottleneck_size kernel_width x])

/-- Embedding of `dense_block(k, num_layers, kernel_width, bottleneck_size, se)`
applied to a tensor: the loop starts from `layers_to_concat = [x]`. -/
def dense_block (k num_layers kernel_width bottleneck_size : Nat) (se : Bool)
    (x : Tensor) : Tensor :=
  denseLoopAux k kernel_width bottleneck_size se num_layers x [x]

/-- Python's `int()` truncation toward zero on a rational. -/
def intTrunc (q : ℚ) : Int := if q < 0 then -⌊-q⌋ else ⌊q⌋

/-- The inner function `f` of `transition_block`:
`int(int(x.shape[2]) * float(theta))` output filters (`x.shape[2]` is the
channel axis of the batch-including shape, i.e. the last entry of the batchless
shape), then normalize, rectify, 1-wide convolution, same-padded average pool,
and the optional squeeze-excite gate. -/
def transition_body (pool_size stride : Nat) (theta : ℚ) (se : Bool) (x : Tensor) : Tensor :=
  let chans :=
    match buildShape x with
    | some [_, c] => c
    | _ => 0
  let num_transition_output_filters := (intTrunc ((chans : ℚ) * theta)).toNat
  let x1 := Tensor.batchNorm x
  let x2 := Tensor.activation "relu" x1
  let x3 := Tensor.conv1d num_transition_output_filters 1 1 "same" 1 x2
  let x4 := Tensor.avgPool1d pool_size stride "same" x3
  if se then squeeze_excite_block x4 8 else x4

/-- Embedding of `transition_block(pool_size, stride, theta, se)`: the factory
checks `assert theta > 0 and theta <= 1` before returning the block-building
function, so an out-of-range `theta` fails before any graph node exists. -/
def transition_block (pool_size stride : Nat) (theta : ℚ) (se : Bool) :
    Except String (Tensor → Tensor) :=
  if 0 < theta ∧ theta ≤ 1 then .ok (transition_body pool_size stride theta se)
  else .error "AssertionError"

/-- Input to a dense-block convolutional unit given the outputs of the previous
units: the first unit sees the raw block input; every later one sees the
channel-axis concatenation of the block input and all previous unit outputs,
with the optional squeeze-excite gate applied to that concatenation. -/
def unitInput (se : Bool) (x : Tensor) (prev : List Tensor) : Tensor :=
  match prev with
  | [] => x
  | _ :: _ => seGate se (Tensor.concat (x :: prev))

/-- Dense-connectivity reference, following the spec's description of the dense
block: the list of the first `n` convolutional-unit outputs, where unit `i + 1`
is `H_l` applied to the concatenation of the block input and the outputs of
units `1 .. i` (optionally gated).  Stated from the spec's words, to be
compared with the loop `dense_block` embeds from the source. -/
def denseConnOuts (k bottleneck_size kernel_width : Nat) (se : Bool) (x : Tensor) :
    Nat → List Tensor
  | 0 => []
  | n + 1 =>
    denseConnOuts k bottleneck_size kernel_width se x n ++
      [H_l k bottleneck_size kernel_width
        (unitInput se x (denseConnOuts k bottleneck_size kernel_width se x n))]

/-- Python truthiness of the `block_sizes` argument (`None` or a list):
`not block_sizes` is true exactly for `None` and the empty list. -/
def pyTruthyList (bs : Option (List Nat)) : Bool :=
  match bs with
  | none => false
  | some l => !l.isEmpty

/-- Python-level construction failures the classifier builders can raise. -/
inductive PyError where
  | valueError (msg : String)
  | nameError (missing : String)
  deriving Repr, DecidableEq

/-- A built Keras model: its input placeholder and its output tensor. -/
structure KerasModel where
  inputs : Tensor
  outputs : Tensor

/-- Modelled from the spec: `densenet.models.one_d.DenseNet`, the network
assembler, is imported by `densenet/classifiers/one_d.py` but its module is not
among the repository sources.  Per spec section 4.5 it builds the stem (one
convolution with the given width, stride and filter count, followed by a
pooling stage with the given pool width and stride), then for each entry of
`block_sizes` a dense block of that many layers followed by a transition block
(including after the last dense block), and finally a global average pool when
`use_global_pooling` is set, otherwise the full-resolution feature map. -/
def denseNetAssembler (k : Nat) (block_sizes : List Nat)
    (conv_kernel_width bottleneck_size transition_pool_size transition_pool_stride : Nat)
    (theta : ℚ)
    (initial_conv_width initial_stride initial_filters initial_pool_width initial_pool_stride : Nat)
    (use_global_pooling se : Bool) (x : Tensor) : Tensor :=
  let x1 := Tensor.conv1d initial_filters initial_conv_width initial_stride "same" 1 x
  let x2 := Tensor.avgPool1d initial_pool_width initial_pool_stride "same" x1
  let x3 := block_sizes.foldl
    (fun t n => transition_body transition_pool_size transition_pool_stride theta se
      (dense_block k n conv_kernel_width bottleneck_size se t)) x2
  if use_global_pooling then Tensor.globalAvgPool1d x3 else x3

/-- Embedding of `DenseFCN` from `densenet/classifiers/one_d.py`.  The guard
`if not block_sizes: raise ValueError(...)` runs before the `Input` placeholder
is created.  After building the assembler's un-pooled output, the source's
final line is `Conv2D(num_outputs, (1, 1), padding='same',
activation='sigmoid')(x)`, but the module imports only `Conv1D` (and no `x` is
in scope), so every call that passes the guard raises
`NameError: name 'Conv2D' is not defined` instead of returning a model. -/
def DenseFCN (input_shape : Nat × Nat) (num_outputs k : Nat)
    (block_sizes : Option (List Nat))
    (conv_kernel_width bottleneck_size transition_pool_size transition_pool_stride : Nat)
    (theta : ℚ)
    (initial_conv_width initial_stride initial_filters initial_pool_width initial_pool_stride : Nat) :
    Except PyError KerasModel :=
  if pyTruthyList block_sizes = false then
    .error (.valueError "block_sizes must be specified")
  else
    let model_input := Tensor.input input_shape.1 input_shape.2
    let _output := denseNetAssembler k (block_sizes.getD []) conv_kernel_width
      bottleneck_size transition_pool_size transition_pool_stride theta
      initial_conv_width initial_stride initial_filters initial_pool_width
      initial_pool_stride false false model_input
    .error (.nameError "Conv2D")

/-- Embedding of `DenseNetCustom` from `densenet/classifiers/one_d.py`: the
`block_sizes` guard, then the assembler with `use_global_pooling=True` and the
caller's `se`, then the optional softmax classification head. -/
def DenseNetCustom (input_shape : Nat × Nat) (num_outputs k : Nat)
    (block_sizes : Option (List Nat))
    (conv_kernel_width bottleneck_size transition_pool_size transition_pool_stride : Nat)
    (theta : ℚ)
    (initial_conv_width initial_stride initial_filters initial_pool_width initial_pool_stride : Nat)
    (include_top se : Bool) :
    Except PyError KerasModel :=
  if pyTruthyList block_sizes = false then
    .error (.valueError "block_sizes must be specified")
  else
    let inputs := Tensor.input input_shape.1 input_shape.2
    let outputs := denseNetAssembler k (block_sizes.getD []) conv_kernel_width
      bottleneck_size transition_pool_size transition_pool_stride theta
      initial_conv_width initial_stride initial_filters initial_pool_width
      initial_pool_stride true se inputs
    let outputs2 := if include_top then Tensor.dense num_outputs "softmax" outputs else outputs
    .ok ⟨inputs, outputs2⟩

lemma ceilDiv_one_eq (a : Nat) : ceilDiv a 1 = a := by
  simp [ceilDiv]

lemma broadcastDim_self (a : Nat) : broadcastDim a a = some a := by
  simp [broadcastDim]

lemma broadcastDim_one_right (a : Nat) : broadcastDim a 1 = some a := by
  unfold broadcastDim
  split_ifs with h1 h2 <;> simp_all

/-- Shape of `H_l`: same sequence length, exactly `k` channels, for any rank-2
input. -/
lemma hl_shape (k bs kw L c : Nat) (x : Tensor) (hx : buildShape x = some [L, c]) :
    buildShape (H_l k bs kw x) = some [L, k] := by
  unfold H_l mainStage bottleneckStage
  split <;> simp [buildShape, hx, ceilDiv_one_eq]

/-- Shape preservation of the squeeze-excite gate on any rank-2 input, for any
reduction ratio (Python floor division never mis-sizes the gate: the second
dense layer restores exactly `filters` channels read off the input). -/
lemma squeeze_excite_shape (t : Tensor) (ratio L c : Nat)
    (ht : buildShape t = some [L, c]) :
    buildShape (squeeze_excite_block t ratio) = some [L, c] := by
  have hlast : lastDim t = c := by simp [lastDim, ht]
  simp [squeeze_excite_block, hlast, buildShape, ht, broadcast2, broadcastAux,
    broadcastDim_one_right, broadcastDim_self]

lemma seGate_shape (se : Bool) (t : Tensor) (L c : Nat)
    (ht : buildShape t = some [L, c]) :
    buildShape (seGate se t) = some [L, c] := by
  unfold seGate
  cases se with
  | false => simpa using ht
  | true => simpa using squeeze_excite_shape t 8 L c ht

lemma buildShapes_append (xs ys : List Tensor) :
    buildShapes (xs ++ ys) =
      (buildShapes xs).bind (fun a => (buildShapes ys).map (fun b => a ++ b)) := by
  induction xs with
  | nil => cases h : buildShapes ys <;> simp [buildShapes, h]
  | cons t ts ih =>
    rw [List.cons_append, buildShapes, ih, buildShapes]
    cases h1 : buildShape t <;> cases h2 : buildShapes ts <;>
      cases h3 : buildShapes ys <;> simp [h1, h2, h3]

lemma sameLenChannels_map (L : Nat) (cs : List Nat) :
    sameLenChannels L (cs.map (fun c => [L, c])) = some cs.sum := by
  induction cs with
  | nil => simp [sameLenChannels]
  | cons c cs ih => simp [sameLenChannels, ih]

lemma concatShape_map (L c0 : Nat) (cs : List Nat) (hcs : cs ≠ []) :
    concatShape ((c0 :: cs).map (fun c => [L, c])) = some [L, c0 + cs.sum] := by
  obtain ⟨c1, cs', rfl⟩ : ∃ c1 cs', cs = c1 :: cs' := by
    cases cs with
    | nil => exact absurd rfl hcs
    | cons a l => exact ⟨a, l, rfl⟩
  simp [concatShape, sameLenChannels_map, sameLenChannels]

/-- Loop invariant of the dense-block iteration: if the running tensor has the
channel sum of the accumulated list and every accumulated tensor is rank 2 with
sequence length `L`, then `n` more iterations add `n * k` channels and keep the
sequence length. -/
lemma denseLoopAux_shape (k kw bs : Nat) (se : Bool) :
    ∀ (n : Nat) (x : Tensor) (ls : List Tensor) (L : Nat) (cs : List Nat),
      cs ≠ [] →
      buildShape x = some [L, cs.sum] →
      buildShapes ls = some (cs.map (fun c => [L, c])) →
      buildShape (denseLoopAux k kw bs se n x ls) = some [L, cs.sum + n * k] := by
  intro n
  induction n with
  | zero =>
    intro x ls L cs hcs hx hls
    simpa [denseLoopAux] using hx
  | succ n ih =>
    intro x ls L cs hcs hx hls
    have hh : buildShape (H_l k bs kw x) = some [L, k] := hl_shape k bs kw L cs.sum x hx
    have hls2 : buildShapes (ls ++ [H_l k bs kw x]) =
        some ((cs ++ [k]).map (fun c => [L, c])) := by
      rw [buildShapes_append, hls]
      simp [buildShapes, hh]
    have hconcat : buildShape (Tensor.concat (ls ++ [H_l k bs kw x])) =
        some [L, (cs ++ [k]).sum] := by
      obtain ⟨c0, cs', rfl⟩ : ∃ c0 cs', cs = c0 :: cs' := by
        cases cs with
        | nil => exact absurd rfl hcs
        | cons a l => exact ⟨a, l, rfl⟩
      have : buildShape (Tensor.concat (ls ++ [H_l k bs kw x])) =
          concatShape (((c0 :: cs') ++ [k]).map (fun c => [L, c])) := by
        simp only [buildShape, hls2]
      rw [this, List.cons_append, concatShape_map L c0 (cs' ++ [k]) (by simp)]
      simp [List.sum_append]
    have hgate : buildShape
        (seGate se (Tensor.concat (ls ++ [H_l k bs kw x]))) =
        some [L, (cs ++ [k]).sum] :=
      seGate_shape se _ L _ hconcat
    have hrec := ih
      (seGate se (Tensor.concat (ls ++ [H_l k bs kw x])))
      (ls ++ [H_l k bs kw x]) L (cs ++ [k]) (by simp) hgate hls2
    rw [denseLoopAux]
    rw [hrec]
    have : (cs ++ [k]).sum + n * k = cs.sum + (n + 1) * k := by
      simp [List.sum_append]
      ring
    rw [this]

lemma unitInput_ne_nil (se : Bool) (x : Tensor) (prev : List Tensor) (h : prev ≠ []) :
    unitInput se x prev = seGate se (Tensor.concat (x :: prev)) := by
  cases prev with
  | nil => exact absurd rfl h
  | cons a l => rfl

lemma denseConnOuts_succ_ne_nil (k bs kw : Nat) (se : Bool) (x : Tensor) (n : Nat) :
    denseConnOuts k bs kw se x (n + 1) ≠ [] := by
  simp [denseConnOuts]

/-- The dense-block loop, started from the state reached after `j` reference
iterations, ends after `n` more iterations in the state the reference assigns
to `j + n` iterations. -/
lemma denseLoopAux_conn (k kw bs : Nat) (se : Bool) (x : Tensor) :
    ∀ (n j : Nat),
      denseLoopAux k kw bs se n
        (unitInput se x (denseConnOuts k bs kw se x j))
        (x :: denseConnOuts k bs kw se x j)
      = unitInput se x (denseConnOuts k bs kw se x (j + n)) := by
  intro n
  induction n with
  | zero => intro j; simp [denseLoopAux]
  | succ n ih =>
    intro j
    rw [denseLoopAux]
    have hcons : (x :: denseConnOuts k bs kw se x j) ++
        [H_l k bs kw (unitInput se x (denseConnOuts k bs kw se x j))] =
        x :: denseConnOuts k bs kw se x (j + 1) := by
      rw [List.cons_append]
      rfl
    rw [hcons,
      ← unitInput_ne_nil se x _ (denseConnOuts_succ_ne_nil k bs kw se x j),
      ih (j + 1)]
    have : j + 1 + n = j + (n + 1) := by omega
    rw [this]

/-- C1: for every valid configuration (`k > 0`, any `num_layers`) and every
rank-2 input tensor, the `dense_block` output has channel count
`input_channels + num_layers * k` and the input's sequence length. -/
theorem dense_block_output_shape (k num_layers kernel_width bottleneck_size : Nat)
    (se : Bool) (x : Tensor) (L c : Nat) (hk : 0 < k)
    (hx : buildShape x = some [L, c]) :
    buildShape (dense_block k num_layers kernel_width bottleneck_size se x) =
      some [L, c + num_layers * k] := by
  have h := denseLoopAux_shape k kernel_width bottleneck_size se num_layers x [x] L [c]
    (by simp) (by simpa using hx) (by simp [buildShapes, hx])
  simpa [dense_block] using h

/-- Witness for C1: a 3-layer block with growth rate 2 on a `[4, 1]` input
builds a `[4, 7]` output. -/
theorem dense_block_output_shape_witness :
    0 < 2 ∧ buildShape (dense_block 2 3 3 0 false (Tensor.input 4 1)) = some [4, 7] := by
  have h := dense_block_output_shape 2 3 3 0 false (Tensor.input 4 1) 4 1
    (by decide) (by rfl)
  exact ⟨by decide, by simpa using h⟩

/-- C2: with the squeeze-excite gate disabled, `dense_block` feeds each
convolutional unit the channel-axis concatenation of the block input and all
previous units' outputs (`denseConnOuts` is exactly that reference recursion),
and returns the value of the last iteration, the concatenation of the input
with every unit output; `seGate` makes the same statement with the optional
per-iteration gate applied to each concatenation. -/
theorem dense_block_dense_connectivity (k num_layers kernel_width bottleneck_size : Nat)
    (se : Bool) (x : Tensor) (hn : 1 ≤ num_layers) :
    dense_block k num_layers kernel_width bottleneck_size se x =
      seGate se (Tensor.concat
        (x :: denseConnOuts k bottleneck_size kernel_width se x num_layers)) := by
  obtain ⟨m, rfl⟩ : ∃ m, num_layers = m + 1 := ⟨num_layers - 1, by omega⟩
  have h := denseLoopAux_conn k kernel_width bottleneck_size se x (m + 1) 0
  rw [Nat.zero_add,
    unitInput_ne_nil se x _ (denseConnOuts_succ_ne_nil k bottleneck_size kernel_width se x m)] at h
  exact h

/-- Witness for C2: a 2-layer ungated block on a concrete input is literally
the concatenation `[x, H_l(x), H_l(concat [x, H_l(x)])]` — the second unit sees
the concatenation of the input and the first unit's output. -/
theorem dense_block_dense_connectivity_witness :
    dense_block 1 2 3 0 false (Tensor.input 4 2) =
      Tensor.concat [Tensor.input 4 2, H_l 1 0 3 (Tensor.input 4 2),
        H_l 1 0 3 (Tensor.concat [Tensor.input 4 2, H_l 1 0 3 (Tensor.input 4 2)])] := by
  have h := dense_block_dense_connectivity 1 2 3 0 false (Tensor.input 4 2) (by decide)
  exact h.trans rfl

/-- C5: for every rank-2 input, the `H_l` output has exactly `k` channels and
the input's sequence length (stride 1, same padding), and the bottleneck stage
is present in the built graph exactly when `bottleneck_size > 0`. -/
theorem hl_output_contract (k bottleneck_size kernel_width L c : Nat) (x : Tensor)
    (hx : buildShape x = some [L, c]) :
    buildShape (H_l k bottleneck_size kernel_width x) = some [L, k] ∧
    (0 < bottleneck_size →
      H_l k bottleneck_size kernel_width x =
        mainStage k kernel_width (bottleneckStage k bottleneck_size x)) ∧
    (bottleneck_size = 0 →
      H_l k bottleneck_size kernel_width x = mainStage k kernel_width x) := by
  refine ⟨hl_shape k bottleneck_size kernel_width L c x hx, ?_, ?_⟩
  · intro h
    simp [H_l, h]
  · intro h
    simp [H_l, h]

/-- Witness for C5: a unit with `k = 2`, bottleneck multiplier 4 on a `[5, 3]`
input yields a `[5, 2]` output and contains the bottleneck stage. -/
theorem hl_output_contract_witness :
    buildShape (H_l 2 4 3 (Tensor.input 5 3)) = some [5, 2] ∧
    H_l 2 4 3 (Tensor.input 5 3) = mainStage 2 3 (bottleneckStage 2 4 (Tensor.input 5 3)) := by
  have h := hl_output_contract 2 4 3 5 3 (Tensor.input 5 3) (by rfl)
  exact ⟨h.1, h.2.1 (by decide)⟩

/-- C6: for every rank-2 input tensor and every positive ratio, the
squeeze-excite block's output shape is identical to its input shape. -/
theorem squeeze_excite_output_shape (t : Tensor) (ratio L c : Nat)
    (hratio : 1 ≤ ratio) (ht : buildShape t = some [L, c]) :
    buildShape (squeeze_excite_block t ratio) = buildShape t := by
  rw [squeeze_excite_shape t ratio L c ht, ht]

/-- Witness for C6: on a `[10, 16]` input with the default ratio 8 the gate
preserves the shape. -/
theorem squeeze_excite_output_shape_witness :
    buildShape (squeeze_excite_block (Tensor.input 10 16) 8) =
      buildShape (Tensor.input 10 16) :=
  squeeze_excite_output_shape (Tensor.input 10 16) 8 10 16 (by decide) (by rfl)

/-- C10: `dense_block` with `num_layers = 0` returns its input tensor
unchanged, building no layers at all. -/
theorem dense_block_zero_layers_identity (k kernel_width bottleneck_size : Nat)
    (se : Bool) (x : Tensor) :
    dense_block k 0 kernel_width bottleneck_size se x = x := rfl

/-- C3: for every `theta` in `(0, 1]` and every rank-2 input (with positive
pool geometry), `transition_block` construction succeeds and the block output
has exactly `floor(input_channels * theta)` channels (the sequence length is
pooled to `ceil(L / stride)`). -/
theorem transition_block_channel_compression (pool_size stride : Nat) (theta : ℚ)
    (se : Bool) (x : Tensor) (L c : Nat)
    (h0 : 0 < theta) (h1 : theta ≤ 1) (hp : 1 ≤ pool_size) (hs : 1 ≤ stride)
    (hx : buildShape x = some [L, c]) :
    transition_block pool_size stride theta se =
      .ok (transition_body pool_size stride theta se) ∧
    buildShape (transition_body pool_size stride theta se x) =
      some [ceilDiv L stride, (⌊(c : ℚ) * theta⌋).toNat] := by
  constructor
  · simp [transition_block, h0, h1]
  · have h0m : (0 : ℚ) ≤ (c : ℚ) * theta := mul_nonneg (Nat.cast_nonneg c) h0.le
    have htr : intTrunc ((c : ℚ) * theta) = ⌊(c : ℚ) * theta⌋ := by
      simp [intTrunc, not_lt.mpr h0m]
    have hbody : transition_body pool_size stride theta se x =
        seGate se (Tensor.avgPool1d pool_size stride "same"
          (Tensor.conv1d ((intTrunc ((c : ℚ) * theta)).toNat) 1 1 "same" 1
            (Tensor.activation "relu" (Tensor.batchNorm x)))) := by
      simp [transition_body, seGate, hx]
    have hx4 : buildShape (Tensor.avgPool1d pool_size stride "same"
        (Tensor.conv1d ((intTrunc ((c : ℚ) * theta)).toNat) 1 1 "same" 1
          (Tensor.activation "relu" (Tensor.batchNorm x)))) =
        some [ceilDiv L stride, (intTrunc ((c : ℚ) * theta)).toNat] := by
      simp [buildShape, hx, ceilDiv_one_eq, hp, hs]
    rw [hbody, seGate_shape se _ _ _ hx4, htr]

/-- Witness for C3: `theta = 1/2` on a `[6, 5]` input compresses to
`floor(5 * 1/2) = 2` channels. -/
theorem transition_block_channel_compression_witness :
    transition_block 2 2 (1/2) false = .ok (transition_body 2 2 (1/2) false) ∧
    buildShape (transition_body 2 2 (1/2) false (Tensor.input 6 5)) = some [3, 2] := by
  have h := transition_block_channel_compression 2 2 (1/2) false (Tensor.input 6 5) 6 5
    (by norm_num) (by norm_num) (by norm_num) (by norm_num) (by rfl)
  refine ⟨h.1, ?_⟩
  rw [h.2]
  have hfl : (⌊((5 : ℕ) : ℚ) * (1/2)⌋) = 2 := by norm_num
  rw [hfl]
  rfl

/-- C4: constructing a `transition_block` succeeds exactly when
`0 < theta ≤ 1`; outside that range the factory's assertion fires before the
block-building function (and hence any graph node) exists. -/
theorem transition_block_theta_assert (pool_size stride : Nat) (theta : ℚ) (se : Bool) :
    ((∃ f, transition_block pool_size stride theta se = .ok f) ↔
      (0 < theta ∧ theta ≤ 1)) ∧
    (¬ (0 < theta ∧ theta ≤ 1) →
      transition_block pool_size stride theta se = .error "AssertionError") := by
  by_cases h : 0 < theta ∧ theta ≤ 1
  · exact ⟨⟨fun _ => h, fun _ => ⟨transition_body pool_size stride theta se,
      by simp [transition_block, h]⟩⟩, fun hc => absurd h hc⟩
  · refine ⟨⟨?_, fun hh => absurd hh h⟩, fun _ => by simp [transition_block, h]⟩
    rintro ⟨f, hf⟩
    simp [transition_block, h] at hf

/-- Witness for C4: `theta = 1/2` constructs, `theta = 2` hits the assertion. -/
theorem transition_block_theta_assert_witness :
    (∃ f, transition_block 2 2 (1/2) false = .ok f) ∧
    transition_block 2 2 2 false = .error "AssertionError" := by
  refine ⟨(transition_block_theta_assert 2 2 (1/2) false).1.mpr (by norm_num), ?_⟩
  exact (transition_block_theta_assert 2 2 2 false).2 (by norm_num)

/-- C7: with `block_sizes` absent (`none`) or the empty list, both
`DenseNetCustom` and `DenseFCN` raise `ValueError("block_sizes must be
specified")` before any graph node is created; with a non-empty list and an
otherwise valid configuration, neither raises that configuration error
(`DenseNetCustom` returns a model; `DenseFCN` fails later, but not with a
`ValueError`). -/
theorem classifier_block_sizes_guard (input_shape : Nat × Nat) (num_outputs k : Nat)
    (block_sizes : Option (List Nat))
    (conv_kernel_width bottleneck_size transition_pool_size transition_pool_stride : Nat)
    (theta : ℚ)
    (initial_conv_width initial_stride initial_filters initial_pool_width initial_pool_stride : Nat)
    (include_top se : Bool) (h0 : 0 < theta) (h1 : theta ≤ 1) :
    ((block_sizes = none ∨ block_sizes = some []) →
      DenseNetCustom input_shape num_outputs k block_sizes conv_kernel_width
          bottleneck_size transition_pool_size transition_pool_stride theta
          initial_conv_width initial_stride initial_filters initial_pool_width
          initial_pool_stride include_top se =
        .error (.valueError "block_sizes must be specified") ∧
      DenseFCN input_shape num_outputs k block_sizes conv_kernel_width
          bottleneck_size transition_pool_size transition_pool_stride theta
          initial_conv_width initial_stride initial_filters initial_pool_width
          initial_pool_stride =
        .error (.valueError "block_sizes must be specified")) ∧
    (∀ a l, block_sizes = some (a :: l) →
      (∃ m, DenseNetCustom input_shape num_outputs k block_sizes conv_kernel_width
          bottleneck_size transition_pool_size transition_pool_stride theta
          initial_conv_width initial_stride initial_filters initial_pool_width
          initial_pool_stride include_top se = .ok m) ∧
      (∀ msg, DenseFCN input_shape num_outputs k block_sizes conv_kernel_width
          bottleneck_size transition_pool_size transition_pool_stride theta
          initial_conv_width initial_stride initial_filters initial_pool_width
          initial_pool_stride ≠ .error (.valueError msg))) := by
  constructor
  · rintro (rfl | rfl) <;>
      exact ⟨by simp [DenseNetCustom, pyTruthyList],
        by simp [DenseFCN, pyTruthyList]⟩
  · rintro a l rfl
    refine ⟨⟨_, rfl⟩, ?_⟩
    intro msg hmsg
    simp [DenseFCN, pyTruthyList] at hmsg

/-- Witness for C7: an empty list raises the configuration error, the default
DenseNet121 sizes do not. -/
theorem classifier_block_sizes_guard_witness :
    DenseNetCustom (224, 20) 1000 32 (some []) 3 4 2 2 (1/2) 7 2 64 3 2 false true =
      .error (.valueError "block_sizes must be specified") ∧
    (∃ m, DenseNetCustom (224, 20) 1000 32 (some [6, 12, 24, 16]) 3 4 2 2 (1/2)
      7 2 64 3 2 false true = .ok m) := by
  constructor
  · exact ((classifier_block_sizes_guard (224, 20) 1000 32 (some []) 3 4 2 2 (1/2)
      7 2 64 3 2 false true (by norm_num) (by norm_num)).1 (Or.inr rfl)).1
  · exact ((classifier_block_sizes_guard (224, 20) 1000 32 (some [6, 12, 24, 16])
      3 4 2 2 (1/2) 7 2 64 3 2 false true (by norm_num) (by norm_num)).2
      6 [12, 24, 16] rfl).1

/-- C8: at the default (valid) configuration the source's `DenseFCN` does not
return a model at all: after assembling the un-pooled feature map, its final
projection line references `Conv2D` (never imported — the module imports only
`Conv1D`) and an undefined variable `x`, so the call raises a `NameError`
instead of appending the 1-wide sigmoid convolution the spec describes. -/
theorem denseFCN_raises_nameError :
    DenseFCN (224, 20) 5 32 (some [6, 12, 24, 16]) 3 4 2 2 (1/2) 7 2 64 3 2 =
      .error (.nameError "Conv2D") := rfl

/-- C9 counterexample: it is not the case that some rank-2 input whose channel
count the (positive) ratio fails to divide makes `squeeze_excite_block` fail
at graph-build time — Python's floor division `filters // ratio` always yields
a well-formed reduction width, so no shape mismatch ever surfaces. -/
theorem squeeze_excite_indivisible_never_fails :
    ¬ ∃ (t : Tensor) (ratio L c : Nat), buildShape t = some [L, c] ∧ 1 ≤ ratio ∧
      ¬ (ratio ∣ c) ∧ buildShape (squeeze_excite_block t ratio) = none := by
  rintro ⟨t, ratio, L, c, ht, hr, hdvd, hnone⟩
  rw [squeeze_excite_shape t ratio L c ht] at hnone
  exact Option.noConfusion hnone

/-- C9 amended: `squeeze_excite_block` performs no local validation of
`ratio`; for a positive ratio that does not divide the channel count,
construction still succeeds (the reduction width floors to `c / ratio`) and
the output shape equals the input shape. -/
theorem squeeze_excite_indivisible_ratio_builds (t : Tensor) (ratio L c : Nat)
    (hr : 1 ≤ ratio) (hdvd : ¬ (ratio ∣ c)) (ht : buildShape t = some [L, c]) :
    buildShape (squeeze_excite_block t ratio) = some [L, c] :=
  squeeze_excite_shape t ratio L c ht

/-- Witness for the amended C9: channel count 12 with the default ratio 8. -/
theorem squeeze_excite_indivisible_ratio_builds_witness :
    buildShape (squeeze_excite_block (Tensor.input 5 12) 8) = some [5, 12] :=
  squeeze_excite_indivisible_ratio_builds (Tensor.input 5 12) 8 5 12
    (by decide) (by decide) (by rfl)
